import Mathlib

/-!
Shallow embedding of the swift-corelibs-xctest build script
(`build_script.py`, `bootstrap/os.py`, `bootstrap/strategy.py`).

Paths are Lean `String`s.  Path arithmetic (`os.path.join`,
`str.strip("/")`, `os.path.basename`, `os.path.abspath`) is embedded from
the CPython `posixpath` implementations.  The filesystem is a shallow
association list from paths to entries; `os.path.isdir` and
`os.path.exists` test the entry stored at the path (symbolic-link
dereference is not modelled).  Side-effecting procedures are embedded as
pure functions producing an event trace (and, for the filesystem helpers,
as state transformers on the shallow filesystem).
-/

/-- Embedding of `b.startswith('/')` used by `posixpath.join`. -/
def startsWithSlash (s : String) : Bool :=
  s.data.head? == some '/'

/-- Embedding of `path.endswith('/')` used by `posixpath.join`. -/
def endsWithSlash (s : String) : Bool :=
  s.data.getLast? == some '/'

/-- One step of CPython `posixpath.join`: absolute components reset the
path, otherwise a `'/'` separator is inserted unless the accumulated path
is empty or already ends with the separator. -/
def joinOne (path b : String) : String :=
  if startsWithSlash b then b
  else if path = "" ∨ endsWithSlash path = true then path ++ b
  else path ++ "/" ++ b

/-- Embedding of `os.path.join(a, p₁, ..., pₙ)` (POSIX flavour). -/
def posixJoin (a : String) (ps : List String) : String :=
  ps.foldl joinOne a

/-- Embedding of Python `s.strip("/")`: drop every leading and trailing
`'/'` character. -/
def strip_slashes (s : String) : String :=
  ⟨((s.data.dropWhile (fun c => c == '/')).reverse.dropWhile
      (fun c => c == '/')).reverse⟩

/-- Embedding of `os.path.basename`: the suffix after the last `'/'`. -/
def basename (p : String) : String :=
  ⟨(p.data.reverse.takeWhile (fun c => c != '/')).reverse⟩

/-- Embedding of `os.path.abspath(p)` relative to a current working
directory `cwd`: `posixpath.join(cwd, p)` (an absolute `p` is returned
unchanged).  The `normpath` collapsing of `.`/`..` segments is not
modelled; no claim depends on it. -/
def abspath (cwd p : String) : String :=
  joinOne cwd p

namespace GenericUnixStrategy

/-- Embedding of `GenericUnixStrategy.core_foundation_build_dir`
(`bootstrap/strategy.py` lines 229-242):
`os.path.join(foundation_build_dir, foundation_install_prefix.strip("/"),
'lib', 'swift')`.  It is a pure function of its two string arguments. -/
def core_foundation_build_dir (foundation_build_dir install_pfx : String) :
    String :=
  posixJoin foundation_build_dir [strip_slashes install_pfx, "lib", "swift"]

end GenericUnixStrategy

/-- Modelled from the spec: `auxiliaryLibraryBuildDir(baseDir,
installPrefix)` is the "pure path-join helper combining a base directory, a
normalized install prefix (leading/trailing separators stripped), and a
fixed subpath" — the fixed subpath being `lib/swift`. -/
def auxiliaryLibraryBuildDir (baseDir install_pfx : String) : String :=
  posixJoin baseDir [strip_slashes install_pfx, "lib/swift"]

/-- The last character of a string extended by a non-slash-terminated
literal suffix is the last character of that suffix. -/
theorem getLast?_append_cons {α : Type} (l : List α) (a : α) (t : List α) :
    (l ++ a :: t).getLast? = (a :: t).getLast? := by
  induction l with
  | nil => rfl
  | cons x xs ih =>
      rw [List.cons_append]
      cases hxe : xs ++ a :: t with
      | nil => cases xs <;> simp at hxe
      | cons y ys =>
          rw [hxe] at ih
          rw [List.getLast?_cons_cons]
          exact ih

theorem endsWithSlash_append_lib (q : String) :
    endsWithSlash (q ++ "lib") = false := by
  unfold endsWithSlash
  rw [show (q ++ "lib").data = q.data ++ 'l' :: ['i', 'b'] from
        String.data_append q "lib",
      getLast?_append_cons]
  rfl

theorem append_lib_ne_empty (q : String) : ¬(q ++ "lib" = "") := by
  intro h
  have hd : (q ++ "lib").data = ([] : List Char) := by rw [h]
  rw [String.data_append] at hd
  simp at hd

/-- Joining the separate components `"lib"` then `"swift"` is the same as
joining the single component `"lib/swift"`. -/
theorem joinOne_lib_swift (q : String) :
    joinOne (joinOne q "lib") "swift" = joinOne q "lib/swift" := by
  unfold joinOne
  have hs1 : startsWithSlash "lib" = false := rfl
  have hs2 : startsWithSlash "swift" = false := rfl
  have hs3 : startsWithSlash "lib/swift" = false := rfl
  rw [hs1, hs3]
  simp only [Bool.false_eq_true, if_false]
  by_cases h : q = "" ∨ endsWithSlash q = true
  · rw [if_pos h, if_pos h, hs2]
    simp only [Bool.false_eq_true, if_false]
    rw [if_neg]
    · rw [String.append_assoc, String.append_assoc,
          show ("lib" ++ ("/" ++ "swift") : String) = "lib/swift" from rfl]
    · intro hcon
      rcases hcon with hc | hc
      · exact append_lib_ne_empty q hc
      · rw [endsWithSlash_append_lib] at hc; exact Bool.false_ne_true hc
  · rw [if_neg h, if_neg h, hs2]
    simp only [Bool.false_eq_true, if_false]
    rw [if_neg]
    · rw [String.append_assoc, String.append_assoc, String.append_assoc,
          String.append_assoc,
          show ("/" ++ ("lib" ++ ("/" ++ "swift")) : String) = "/" ++ "lib/swift"
            from rfl]
    · intro hcon
      rcases hcon with hc | hc
      · have hd : (q ++ "/" ++ "lib").data = ([] : List Char) := by rw [hc]
        rw [String.data_append, String.data_append] at hd
        simp at hd
      · unfold endsWithSlash at hc
        rw [String.data_append,
            show (q ++ "/").data = q.data ++ '/' :: [] from
              String.data_append q "/",
            List.append_assoc, List.cons_append,
            getLast?_append_cons] at hc
        simp at hc

/-- C2: `core_foundation_build_dir` agrees everywhere with the spec's
`auxiliaryLibraryBuildDir` — the join of the base directory, the
slash-stripped install prefix, and the fixed subpath `lib/swift`.  Both
sides are pure functions of the two string arguments (the embedding has no
effects). -/
theorem core_foundation_build_dir_eq_spec
    (foundation_build_dir install_pfx : String) :
    GenericUnixStrategy.core_foundation_build_dir
        foundation_build_dir install_pfx =
      auxiliaryLibraryBuildDir foundation_build_dir install_pfx := by
  unfold GenericUnixStrategy.core_foundation_build_dir
  unfold auxiliaryLibraryBuildDir
  unfold posixJoin
  simp only [List.foldl]
  exact joinOne_lib_swift _

/-! ## Shallow filesystem model (`bootstrap/os.py`) -/

/-- A filesystem entry: a regular file, a directory, or a symbolic link
holding its target path. -/
inductive Entry : Type
  | file : Entry
  | dir : Entry
  | symlink (target : String) : Entry
deriving DecidableEq

/-- The shallow filesystem: an association list from paths to entries.
Earlier pairs shadow later ones. -/
abbrev FS : Type := List (String × Entry)

/-- Look up the entry stored at a path. -/
def lookupFS : FS → String → Option Entry
  | [], _ => none
  | (q, e) :: fs, p => if q = p then some e else lookupFS fs p

/-- Remove every pair stored at a path. -/
def eraseFS (fs : FS) (p : String) : FS :=
  fs.filter (fun qe => qe.1 != p)

/-- The `errno` values the embedded code distinguishes. -/
inductive Errno : Type
  | EEXIST : Errno
  | EISDIR : Errno
  | ENOENT : Errno
  | EACCES : Errno
deriving DecidableEq

/-- Embedding of `os.symlink(target, link_name)`: fails with `EEXIST` when
any entry (file, directory, or even a dangling symlink) already occupies
`link_name`; otherwise records the new symlink. -/
def os_symlink (fs : FS) (target link_name : String) : Except Errno FS :=
  match lookupFS fs link_name with
  | some _ => .error .EEXIST
  | none => .ok ((link_name, Entry.symlink target) :: fs)

/-- Embedding of `os.remove(p)`: fails with `ENOENT` when nothing is at
`p` and with `EISDIR` when the entry is a directory (directories cannot be
unlinked); otherwise removes the entry. -/
def os_remove (fs : FS) (p : String) : Except Errno FS :=
  match lookupFS fs p with
  | none => .error .ENOENT
  | some .dir => .error .EISDIR
  | some _ => .ok (eraseFS fs p)

/-- Embedding of `os.path.isdir(p)`: the entry at `p` is a directory
(symbolic-link dereference is not modelled). -/
def os_path_isdir (fs : FS) (p : String) : Bool :=
  lookupFS fs p == some Entry.dir

/-- Embedding of `os.path.exists(p)`: some entry occupies `p`
(symbolic-link dereference is not modelled). -/
def os_path_exists (fs : FS) (p : String) : Bool :=
  (lookupFS fs p).isSome

/-- The link path `symlink_force` actually writes to (`bootstrap/os.py`
lines 32-33): when `link_name` is a directory the link lives inside it
under the target's base name. -/
def symlink_force_resolved (fs : FS) (target link_name : String) : String :=
  if os_path_isdir fs link_name then joinOne link_name (basename target)
  else link_name

/-- Embedding of the `except OSError` handler of `symlink_force`
(`bootstrap/os.py` lines 36-41): on `EEXIST` remove the occupant of the
resolved link path and retry the `os.symlink`; re-raise any other error. -/
def symlink_force_handle (e : Errno) (fs : FS) (target link_name : String) :
    Except Errno FS :=
  if e = Errno.EEXIST then
    match os_remove fs link_name with
    | .ok fs2 => os_symlink fs2 target link_name
    | .error e2 => .error e2
  else .error e

/-- Embedding of `symlink_force(target, link_name)` (`bootstrap/os.py`
lines 27-41). -/
def symlink_force (fs : FS) (target link_name : String) : Except Errno FS :=
  match os_symlink fs target (symlink_force_resolved fs target link_name) with
  | .ok fs2 => .ok fs2
  | .error e =>
      symlink_force_handle e fs target
        (symlink_force_resolved fs target link_name)

/-- Embedding of Python `p.split("/")` on the character list of `p`. -/
def splitOnSlashChars : List Char → List (List Char)
  | [] => [[]]
  | c :: cs =>
      if c = '/' then [] :: splitOnSlashChars cs
      else
        match splitOnSlashChars cs with
        | [] => [[c]]
        | g :: gs => (c :: g) :: gs

/-- The `'/'`-separated components of a path. -/
def path_components (p : String) : List String :=
  (splitOnSlashChars p.data).map (fun l => ⟨l⟩)

/-- Every path prefix of `p` obtained by cutting at the `'/'` separators,
ending with `p` itself. -/
def path_prefixes (p : String) : List String :=
  (List.range (path_components p).length).map
    (fun i => String.intercalate "/" ((path_components p).take (i + 1)))

/-- The proper ancestors of a path: its prefixes without the path itself. -/
def path_ancestors (p : String) : List String :=
  (path_prefixes p).dropLast

/-- Add a directory entry at a path unless some entry is already there. -/
def ensure_dir_entry (f : FS) (q : String) : FS :=
  match lookupFS f q with
  | none => (q, Entry.dir) :: f
  | some _ => f

/-- Effect of the external `mkdir -p {path}` shell command on the shallow
filesystem: the path itself becomes a directory and a directory entry is
added for every ancestor that has no entry yet.  (The command's text is
issued through `run`; its semantics are those of POSIX `mkdir -p`.) -/
def mkdir_p_cmd (fs : FS) (p : String) : FS :=
  (p, Entry.dir) :: (path_ancestors p).foldl ensure_dir_entry fs

/-- Embedding of `mkdirp(path)` (`bootstrap/os.py` lines 19-24): run
`mkdir -p` only when nothing exists at the path. -/
def mkdirp (fs : FS) (p : String) : FS :=
  if os_path_exists fs p then fs else mkdir_p_cmd fs p

theorem lookupFS_cons_self (fs : FS) (p : String) (e : Entry) :
    lookupFS ((p, e) :: fs) p = some e := by
  show (if p = p then some e else lookupFS fs p) = some e
  rw [if_pos rfl]

theorem lookupFS_cons_ne (fs : FS) (p q : String) (e : Entry) (h : q ≠ p) :
    lookupFS ((q, e) :: fs) p = lookupFS fs p := by
  show (if q = p then some e else lookupFS fs p) = lookupFS fs p
  rw [if_neg h]

theorem lookupFS_erase_self (fs : FS) (p : String) :
    lookupFS (eraseFS fs p) p = none := by
  induction fs with
  | nil => rfl
  | cons qe fs ih =>
      unfold eraseFS
      rw [List.filter_cons]
      by_cases h : qe.1 = p
      · rw [if_neg]
        · exact ih
        · simp [h]
      · rw [if_pos (by simp [h])]
        show lookupFS (qe :: eraseFS fs p) p = none
        cases qe with
        | mk q e =>
            rw [lookupFS_cons_ne _ _ _ _ h]
            exact ih

theorem lookupFS_erase_ne (fs : FS) (p q : String) (h : p ≠ q) :
    lookupFS (eraseFS fs q) p = lookupFS fs p := by
  induction fs with
  | nil => rfl
  | cons qe fs ih =>
      unfold eraseFS
      rw [List.filter_cons]
      by_cases hq : qe.1 = q
      · rw [if_neg (by simp [hq])]
        cases qe with
        | mk r e =>
            simp only at hq
            rw [hq]
            rw [lookupFS_cons_ne _ _ _ _ (fun hqp => h hqp.symm)]
            exact ih
      · rw [if_pos (by simp [hq])]
        cases qe with
        | mk r e =>
            by_cases hr : r = p
            · subst hr
              show lookupFS ((r, e) :: eraseFS fs q) r = _
              rw [lookupFS_cons_self, lookupFS_cons_self]
            · show lookupFS ((r, e) :: eraseFS fs q) p = _
              rw [lookupFS_cons_ne _ _ _ _ hr, lookupFS_cons_ne _ _ _ _ hr]
              exact ih

/-- A successful `symlink_force` writes the symlink at the resolved link
path and leaves every other path untouched. -/
theorem symlink_force_ok_spec (fs : FS) (t l : String) (fs' : FS)
    (h : symlink_force fs t l = Except.ok fs') :
    lookupFS fs' (symlink_force_resolved fs t l) = some (Entry.symlink t)
    ∧ ∀ p, p ≠ symlink_force_resolved fs t l → lookupFS fs' p = lookupFS fs p := by
  rcases hlk : lookupFS fs (symlink_force_resolved fs t l) with _ | e
  · simp only [symlink_force, os_symlink, hlk] at h
    cases h
    constructor
    · exact lookupFS_cons_self _ _ _
    · intro p hp
      exact lookupFS_cons_ne _ _ _ _ (fun hq => hp hq.symm)
  · simp only [symlink_force, os_symlink, symlink_force_handle, os_remove,
      hlk, if_pos] at h
    cases e with
    | dir => simp at h
    | file =>
        simp only [lookupFS_erase_self] at h
        cases h
        constructor
        · exact lookupFS_cons_self _ _ _
        · intro p hp
          rw [lookupFS_cons_ne _ _ _ _ (fun hq => hp hq.symm),
              lookupFS_erase_ne _ _ _ hp]
    | symlink u =>
        simp only [lookupFS_erase_self] at h
        cases h
        constructor
        · exact lookupFS_cons_self _ _ _
        · intro p hp
          rw [lookupFS_cons_ne _ _ _ _ (fun hq => hp hq.symm),
              lookupFS_erase_ne _ _ _ hp]

/-- A successful `symlink_force` never had a directory at its resolved
link path (removing a directory would have failed with `EISDIR`). -/
theorem symlink_force_ok_not_dir (fs : FS) (t l : String) (fs' : FS)
    (h : symlink_force fs t l = Except.ok fs') :
    ¬ lookupFS fs (symlink_force_resolved fs t l) = some Entry.dir := by
  intro hdir
  simp only [symlink_force, os_symlink, symlink_force_handle, os_remove,
    hdir, if_pos] at h
  exact Except.noConfusion h

/-- The resolved link path of a repeated `symlink_force` call is unchanged:
a successful call does not disturb the directory test on `link_name`. -/
theorem symlink_force_resolved_stable (fs : FS) (t l : String) (fs' : FS)
    (h : symlink_force fs t l = Except.ok fs') :
    symlink_force_resolved fs' t l = symlink_force_resolved fs t l := by
  rcases symlink_force_ok_spec fs t l fs' h with ⟨hat, hother⟩
  by_cases hd : os_path_isdir fs l = true
  · have hll : lookupFS fs l = some Entry.dir := by
      have := hd
      unfold os_path_isdir at this
      exact eq_of_beq this
    have hne : l ≠ symlink_force_resolved fs t l := by
      intro he
      exact symlink_force_ok_not_dir fs t l fs' h (he ▸ hll)
    have hl' : lookupFS fs' l = some Entry.dir := by
      rw [hother l hne]; exact hll
    unfold symlink_force_resolved os_path_isdir
    rw [hll, hl']
  · have hres : symlink_force_resolved fs t l = l := by
      unfold symlink_force_resolved
      rw [if_neg hd]
    have hl' : lookupFS fs' l = some (Entry.symlink t) := by
      rw [← hres]; exact hat
    have hd' : os_path_isdir fs' l = false := by
      unfold os_path_isdir
      rw [hl']
      rfl
    unfold symlink_force_resolved
    rw [if_neg (by simp [hd']), if_neg hd]

theorem lookupFS_isSome_cons (fs : FS) (q r : String) (e : Entry)
    (h : (lookupFS fs q).isSome = true) :
    (lookupFS ((r, e) :: fs) q).isSome = true := by
  by_cases hr : r = q
  · subst hr
    rw [lookupFS_cons_self]
    rfl
  · rw [lookupFS_cons_ne _ _ _ _ hr]
    exact h

/-- Calling `symlink_force` again right after a successful call succeeds:
the `EEXIST` raised by `os.symlink` is caught, the previous link is
removed, and the symlink is recreated. -/
theorem symlink_force_second (fs : FS) (t l : String) (fs1 : FS)
    (h : symlink_force fs t l = Except.ok fs1) :
    symlink_force fs1 t l =
      Except.ok ((symlink_force_resolved fs t l, Entry.symlink t) ::
        eraseFS fs1 (symlink_force_resolved fs t l)) := by
  have hst := symlink_force_resolved_stable fs t l fs1 h
  have hat := (symlink_force_ok_spec fs t l fs1 h).1
  simp [symlink_force, hst, os_symlink, hat, symlink_force_handle,
    os_remove, lookupFS_erase_self]

/-- The error handler of `symlink_force` re-raises every error other than
`EEXIST` unchanged. -/
theorem symlink_force_handle_other (e : Errno) (fs : FS) (t l : String)
    (he : e ≠ Errno.EEXIST) :
    symlink_force_handle e fs t l = Except.error e := by
  unfold symlink_force_handle
  rw [if_neg he]

/-- C5: symlink_force is idempotent.  It never surfaces an already-exists
error; after a successful call, a second call with the same arguments
succeeds again and the symlink to the target is present at the resolved
link path; the handler re-raises every filesystem error other than
already-exists. -/
theorem symlink_force_idempotent :
    (∀ fs t l, symlink_force fs t l ≠ Except.error Errno.EEXIST)
    ∧ (∀ fs t l fs1, symlink_force fs t l = Except.ok fs1 →
        ∃ fs2, symlink_force fs1 t l = Except.ok fs2
          ∧ lookupFS fs2 (symlink_force_resolved fs t l) =
              some (Entry.symlink t))
    ∧ (∀ e fs t l, e ≠ Errno.EEXIST →
        symlink_force_handle e fs t l = Except.error e) := by
  refine ⟨?_, ?_, ?_⟩
  · intro fs t l hcon
    rcases hlk : lookupFS fs (symlink_force_resolved fs t l) with _ | e
    · simp [symlink_force, os_symlink, hlk] at hcon
    · cases e with
      | dir =>
          simp [symlink_force, os_symlink, symlink_force_handle,
            os_remove, hlk] at hcon
      | file =>
          simp [symlink_force, os_symlink, symlink_force_handle,
            os_remove, hlk, lookupFS_erase_self] at hcon
      | symlink u =>
          simp [symlink_force, os_symlink, symlink_force_handle,
            os_remove, hlk, lookupFS_erase_self] at hcon
  · intro fs t l fs1 h
    refine ⟨_, symlink_force_second fs t l fs1 h, ?_⟩
    exact lookupFS_cons_self _ _ _
  · exact symlink_force_handle_other

/-- C5 witness: concrete run.  Starting from a filesystem holding the
directory `d`, linking `a/x` into `d` succeeds, and a second identical
call succeeds again with the link present; a non-`EEXIST` error is
re-raised. -/
theorem symlink_force_idempotent_witness :
    (∃ fs2,
        symlink_force [("d/x", Entry.symlink "a/x"), ("d", Entry.dir)]
            "a/x" "d" = Except.ok fs2
        ∧ lookupFS fs2
            (symlink_force_resolved [("d", Entry.dir)] "a/x" "d") =
            some (Entry.symlink "a/x"))
    ∧ symlink_force_handle Errno.EISDIR [] "a" "b" =
        Except.error Errno.EISDIR :=
  ⟨symlink_force_idempotent.2.1 [("d", Entry.dir)] "a/x" "d"
      [("d/x", Entry.symlink "a/x"), ("d", Entry.dir)] (by rfl),
    symlink_force_idempotent.2.2 Errno.EISDIR [] "a" "b" (by decide)⟩

theorem ensure_dir_entry_mono (f : FS) (q r : String)
    (h : (lookupFS f r).isSome = true) :
    (lookupFS (ensure_dir_entry f q) r).isSome = true := by
  unfold ensure_dir_entry
  cases hlk : lookupFS f q with
  | none => exact lookupFS_isSome_cons _ _ _ _ h
  | some e => exact h

theorem ensure_dir_entry_self (f : FS) (q : String) :
    (lookupFS (ensure_dir_entry f q) q).isSome = true := by
  unfold ensure_dir_entry
  cases hlk : lookupFS f q with
  | none =>
      rw [lookupFS_cons_self]
      rfl
  | some e =>
      rw [hlk]
      rfl

theorem foldl_ensure_mono (l : List String) (f : FS) (r : String)
    (h : (lookupFS f r).isSome = true) :
    (lookupFS (l.foldl ensure_dir_entry f) r).isSome = true := by
  induction l generalizing f with
  | nil => exact h
  | cons x xs ih => exact ih _ (ensure_dir_entry_mono f x r h)

theorem foldl_ensure_covers (l : List String) (f : FS) :
    ∀ q ∈ l, (lookupFS (l.foldl ensure_dir_entry f) q).isSome = true := by
  induction l generalizing f with
  | nil => intro q hq; cases hq
  | cons x xs ih =>
      intro q hq
      rcases List.mem_cons.mp hq with hx | hxs
      · subst hx
        exact foldl_ensure_mono xs _ q (ensure_dir_entry_self f q)
      · exact ih _ q hxs

/-- C6: mkdirp (ensureDirectory) is idempotent.  A second call on the same
path is a no-op; when nothing exists at the path the directory and every
ancestor prefix become present; when something already exists at the path
the filesystem is untouched.  The embedding is a total function, so no
error is produced. -/
theorem mkdirp_idempotent :
    (∀ fs p, mkdirp (mkdirp fs p) p = mkdirp fs p)
    ∧ (∀ fs p, os_path_exists fs p = false →
        lookupFS (mkdirp fs p) p = some Entry.dir
        ∧ ∀ q ∈ path_ancestors p, (lookupFS (mkdirp fs p) q).isSome = true)
    ∧ (∀ fs p, os_path_exists fs p = true → mkdirp fs p = fs) := by
  refine ⟨?_, ?_, ?_⟩
  · intro fs p
    by_cases h : os_path_exists fs p = true
    · have h1 : mkdirp fs p = fs := by unfold mkdirp; rw [if_pos h]
      rw [h1]
      exact h1
    · have h1 : mkdirp fs p = mkdir_p_cmd fs p := by
        unfold mkdirp; rw [if_neg h]
      have h2 : os_path_exists (mkdir_p_cmd fs p) p = true := by
        unfold os_path_exists mkdir_p_cmd
        rw [lookupFS_cons_self]
        rfl
      rw [h1]
      unfold mkdirp
      rw [if_pos h2]
  · intro fs p h
    have h1 : mkdirp fs p = mkdir_p_cmd fs p := by
      unfold mkdirp
      rw [if_neg (by rw [h]; exact Bool.false_ne_true)]
    rw [h1]
    constructor
    · exact lookupFS_cons_self _ _ _
    · intro q hq
      exact lookupFS_isSome_cons _ _ _ _ (foldl_ensure_covers _ _ q hq)
  · intro fs p h
    unfold mkdirp
    rw [if_pos h]

/-- C6 witness: creating `a/b` in the empty filesystem yields a directory
at `a/b` with its ancestor present, and a second call on an occupied path
is a no-op. -/
theorem mkdirp_idempotent_witness :
    (lookupFS (mkdirp [] "a/b") "a/b" = some Entry.dir
      ∧ ∀ q ∈ path_ancestors "a/b",
          (lookupFS (mkdirp [] "a/b") q).isSome = true)
    ∧ mkdirp [("x", Entry.file)] "x" = [("x", Entry.file)] :=
  ⟨mkdirp_idempotent.2.1 [] "a/b" (by rfl),
    mkdirp_idempotent.2.2 [("x", Entry.file)] "x" (by rfl)⟩

/-! ## CLI dispatcher (`build_script.py`) -/

/-- The tokens checked by `main` (`build_script.py` line 200): the three
subcommand names and the two help flags. -/
def known_subcommand_tokens : List String :=
  ["build", "test", "install", "-h", "--help"]

/-- Embedding of the default-subcommand fallback of `main`
(`build_script.py` lines 196-203): the argument list actually handed to
the parser.  When none of the known tokens occurs anywhere in `args`, the
subcommand `build` is prepended; otherwise `args` is parsed unchanged. -/
def main_effective_args (args : List String) : List String :=
  if args.any (fun a => known_subcommand_tokens.contains a) then args
  else "build" :: args

/-- C1: when none of the tokens build, test, install, -h, --help occurs in
the raw argument list, `main` prepends the subcommand `build`, so the
effective subcommand resolves to `build`; when any of them occurs the
argument list is parsed unchanged. -/
theorem main_effective_args_default :
    (∀ args : List String,
      (∀ a ∈ args, a ∉ known_subcommand_tokens) →
        main_effective_args args = "build" :: args
        ∧ (main_effective_args args).head? = some "build")
    ∧ (∀ args : List String,
        (∃ a ∈ args, a ∈ known_subcommand_tokens) →
          main_effective_args args = args) := by
  constructor
  · intro args h
    have hany : args.any (fun a => known_subcommand_tokens.contains a) = false := by
      rw [List.any_eq_false]
      intro a ha hc
      exact h a ha (List.mem_of_elem_eq_true hc)
    unfold main_effective_args
    rw [if_neg (by rw [hany]; exact Bool.false_ne_true)]
    exact ⟨rfl, rfl⟩
  · intro args h
    rcases h with ⟨a, ha, hmem⟩
    have hany : args.any (fun a => known_subcommand_tokens.contains a) = true := by
      rw [List.any_eq_true]
      exact ⟨a, ha, List.elem_eq_true_of_mem hmem⟩
    unfold main_effective_args
    rw [if_pos hany]

/-- C1 witness: with no known token in the arguments, `build` is
prepended and becomes the effective subcommand; with one present the list
is unchanged. -/
theorem main_effective_args_default_witness :
    (main_effective_args ["--swiftc", "/s"] = ["build", "--swiftc", "/s"]
      ∧ (main_effective_args ["--swiftc", "/s"]).head? = some "build")
    ∧ main_effective_args ["test", "--swiftc", "/s"] = ["test", "--swiftc", "/s"] :=
  ⟨main_effective_args_default.1 ["--swiftc", "/s"] (by decide),
    main_effective_args_default.2 ["test", "--swiftc", "/s"]
      ⟨"test", by decide, by decide⟩⟩

/-- C10: the fallback is suppressed by a known token anywhere in the raw
argument list, regardless of its position or grammatical role — also when
the token is merely the value of a flag or a positional path. -/
theorem main_effective_args_token_anywhere :
    ∀ (args : List String) (a : String), a ∈ args →
      a ∈ known_subcommand_tokens → main_effective_args args = args := by
  intro args a ha hmem
  unfold main_effective_args
  rw [if_pos]
  rw [List.any_eq_true]
  exact ⟨a, ha, List.elem_eq_true_of_mem hmem⟩

/-- C10 witness: a build directory literally named `build`, appearing only
as the value of the `--build-dir` flag, suppresses the fallback, so no
`build` subcommand is prepended even though no token is positioned as a
subcommand. -/
theorem main_effective_args_token_anywhere_witness :
    main_effective_args ["--build-dir", "build", "--swiftc", "/s"] =
      ["--build-dir", "build", "--swiftc", "/s"] :=
  main_effective_args_token_anywhere ["--build-dir", "build", "--swiftc", "/s"]
    "build" (by decide) (by decide)

/-! ## Platform strategies (`bootstrap/strategy.py`) -/

namespace DarwinStrategy

/-- Embedding of `DarwinStrategy.requires_foundation_build_dir`
(`bootstrap/strategy.py` lines 7-12): the Foundation build directory is
not required on Darwin.  A pure constant, no side effects. -/
def requires_foundation_build_dir : Bool :=
  false

end DarwinStrategy

namespace GenericUnixStrategy

/-- Embedding of `GenericUnixStrategy.requires_foundation_build_dir`
(`bootstrap/strategy.py` lines 67-71): a pre-built Foundation library path
is needed on generic Unix.  A pure constant, no side effects. -/
def requires_foundation_build_dir : Bool :=
  true

end GenericUnixStrategy

/-- The strategy selected once at startup (`build_script.py` line 30). -/
inductive Strategy : Type
  | darwin : Strategy
  | genericUnix : Strategy
deriving DecidableEq

/-- Dispatch of `strategy.requires_foundation_build_dir()` on the active
strategy. -/
def Strategy.requires_fbd : Strategy → Bool
  | .darwin => DarwinStrategy.requires_foundation_build_dir
  | .genericUnix => GenericUnixStrategy.requires_foundation_build_dir

/-- Embedding of `build_script.py` line 30: the Darwin strategy is chosen
exactly when the host system is `Darwin`. -/
def strategy_for (system : String) : Strategy :=
  if system = "Darwin" then Strategy.darwin else Strategy.genericUnix

/-- The `required=` value of the `--foundation-build-dir` flag of the
`build` subcommand (`build_script.py` line 90). -/
def build_parser_fbd_required (s : Strategy) : Bool :=
  s.requires_fbd

/-- The `required=` value of the `--foundation-build-dir` flag of the
`test` subcommand (`build_script.py` line 161). -/
def test_parser_fbd_required (s : Strategy) : Bool :=
  s.requires_fbd

/-- Modelled from the spec: `argparse` treats a parse in which a flag
marked `required` is omitted as a usage error (non-zero exit before any
work); a parse omitting a non-required flag is accepted.  `true` means the
parse with the flag omitted is accepted. -/
def parser_accepts_missing (required : Bool) : Bool :=
  !required

/-- C3: `requires_foundation_build_dir` is a pure predicate, true for the
generic-Unix strategy and false for the Darwin strategy; the
`--foundation-build-dir` flag of both the build and test subcommands is
marked required exactly when the active strategy's predicate is true, so
omitting it is a usage error exactly under generic Unix. -/
theorem requires_foundation_build_dir_spec :
    GenericUnixStrategy.requires_foundation_build_dir = true
    ∧ DarwinStrategy.requires_foundation_build_dir = false
    ∧ (∀ s : Strategy, build_parser_fbd_required s = s.requires_fbd)
    ∧ (∀ s : Strategy, test_parser_fbd_required s = s.requires_fbd)
    ∧ (∀ s : Strategy,
        parser_accepts_missing (build_parser_fbd_required s) = false
          ↔ s.requires_fbd = true)
    ∧ (∀ s : Strategy,
        parser_accepts_missing (test_parser_fbd_required s) = false
          ↔ s.requires_fbd = true)
    ∧ parser_accepts_missing (build_parser_fbd_required Strategy.genericUnix)
        = false
    ∧ parser_accepts_missing (build_parser_fbd_required Strategy.darwin)
        = true := by
  refine ⟨rfl, rfl, fun s => rfl, fun s => rfl, ?_, ?_, rfl, rfl⟩
  · intro s
    cases s <;> simp [parser_accepts_missing, build_parser_fbd_required,
      Strategy.requires_fbd, DarwinStrategy.requires_foundation_build_dir,
      GenericUnixStrategy.requires_foundation_build_dir]
  · intro s
    cases s <;> simp [parser_accepts_missing, test_parser_fbd_required,
      Strategy.requires_fbd, DarwinStrategy.requires_foundation_build_dir,
      GenericUnixStrategy.requires_foundation_build_dir]

/-! ## Event traces for the strategy operations -/

/-- Observable effects of a strategy operation, in order of occurrence:
a `note` diagnostic print, an external `run` shell command, a `mkdirp`
directory creation, a `symlink_force` call, a recursive re-entry into the
dispatcher `main`, and a process exit. -/
inductive Event : Type
  | note (msg : String) : Event
  | run (cmd : String) : Event
  | mkdirp (path : String) : Event
  | symlinkForce (target link_name : String) : Event
  | invokeMain (args : List String) : Event
  | exit (code : Nat) : Event
deriving DecidableEq

/-- Does an event mutate the filesystem or run an external command? -/
def is_external_effect : Event → Bool
  | .run _ => true
  | .mkdirp _ => true
  | .symlinkForce _ _ => true
  | .invokeMain _ => true
  | _ => false

/-- Arguments of the `install` subcommand (`build_script.py` 178-194). -/
structure InstallArgs : Type where
  build_dir : String
  module_install_path : Option String
  library_install_path : Option String
deriving DecidableEq

namespace DarwinStrategy

/-- Embedding of `DarwinStrategy.install` (`bootstrap/strategy.py` lines
57-63): print the unsupported-platform diagnostic and exit with status 1.
The print helper `_note` is not bound under `src/`; per the spec's Command
Runner section it is the `note` logger of `bootstrap/os.py`. -/
def install (_args : InstallArgs) : List Event :=
  [Event.note "error: The install command is not supported on this platform",
    Event.exit 1]

end DarwinStrategy

/-- C4: under the Darwin strategy, `install` fails unconditionally for
every parsed configuration: it prints the explicit not-supported error
message and exits with the non-zero status 1, and its trace contains no
external command, no filesystem mutation, and no recursive dispatch. -/
theorem darwin_install_unsupported :
    ∀ args : InstallArgs,
      DarwinStrategy.install args =
        [Event.note
            "error: The install command is not supported on this platform",
          Event.exit 1]
      ∧ (DarwinStrategy.install args).all
          (fun e => !is_external_effect e) = true
      ∧ (DarwinStrategy.install args).all
          (fun e => match e with | Event.exit c => c != 0 | _ => true)
          = true
      ∧ Event.exit 1 ∈ DarwinStrategy.install args := by
  intro args
  refine ⟨rfl, rfl, rfl, ?_⟩
  simp [DarwinStrategy.install]

/-- Arguments of the `build` subcommand (`build_script.py` 67-137). -/
structure BuildArgs : Type where
  swiftc : String
  build_dir : String
  foundation_build_dir : String
  foundation_install_pfx : String
  libdispatch_build_dir : Option String
  libdispatch_src_dir : Option String
  module_path : Option String
  lib_path : Option String
  build_style : String
  test : Bool
deriving DecidableEq

/-- Arguments of the `test` subcommand (`build_script.py` 139-176). -/
structure TestArgs : Type where
  build_dir : String
  swiftc : String
  lit : String
  foundation_build_dir : String
  foundation_install_pfx : String
  libdispatch_build_dir : Option String
  libdispatch_src_dir : Option String
deriving DecidableEq

namespace GenericUnixStrategy

/-- The `-I` flags naming the libdispatch build and source trees
(`bootstrap/strategy.py` lines 101-106): present only when both
directories were supplied on the command line. -/
def libdispatch_args (cwd : String) (args : BuildArgs) : String :=
  match args.libdispatch_build_dir, args.libdispatch_src_dir with
  | some lbd, some lsd =>
      "-I " ++ abspath cwd lbd ++ "/src -I " ++ abspath cwd lsd ++ " "
  | _, _ => ""

/-- The compile command issued by `build` (`bootstrap/strategy.py` lines
108-121), assembled from the resolved paths and the globbed source list. -/
def compile_command (cwd : String) (sourcePaths : List String)
    (args : BuildArgs) : String :=
  abspath cwd args.swiftc ++
    " -Xcc -fblocks -c " ++
    (if args.build_style = "debug" then "-g" else "-O") ++
    " -emit-object -emit-module -module-name XCTest -module-link-name XCTest" ++
    " -parse-as-library -emit-module-path " ++
    abspath cwd args.build_dir ++ "/XCTest.swiftmodule" ++
    " -force-single-frontend-invocation -I " ++
    abspath cwd args.foundation_build_dir ++ " -I " ++
    core_foundation_build_dir (abspath cwd args.foundation_build_dir)
      args.foundation_install_pfx ++ " " ++
    libdispatch_args cwd args ++ " " ++
    String.intercalate " " sourcePaths ++ " -o " ++
    abspath cwd args.build_dir ++ "/XCTest.o"

/-- The link command issued by `build` (`bootstrap/strategy.py` lines
122-130). -/
def link_command (cwd : String) (args : BuildArgs) : String :=
  abspath cwd args.swiftc ++ " -emit-library " ++
    abspath cwd args.build_dir ++ "/XCTest.o -L " ++
    abspath cwd args.foundation_build_dir ++
    " -lswiftGlibc -lswiftCore -lFoundation -lm" ++
    " -Xlinker -rpath=\\$ORIGIN -o " ++
    abspath cwd args.build_dir ++ "/libXCTest.so"

/-- Embedding of `GenericUnixStrategy.build` (`bootstrap/strategy.py`
lines 74-147) as its event trace, on the success path of every external
command.  `sourcePaths` is the result of the `glob.glob` call over the
Swift sources.  The recursive `main(...)` re-entries (the `test` and
`install` chains) come from `bootstrap/main.py`, which is not under
`src/`; per the spec they re-enter the CLI dispatcher, recorded here as
`invokeMain` events. -/
def build (cwd : String) (sourcePaths : List String) (args : BuildArgs) :
    List Event :=
  [Event.mkdirp (abspath cwd args.build_dir),
    Event.run (compile_command cwd sourcePaths args),
    Event.run (link_command cwd args)]
  ++ (if args.test then
        [Event.invokeMain ["test",
          "--swiftc", abspath cwd args.swiftc,
          "--foundation-build-dir", abspath cwd args.foundation_build_dir,
          abspath cwd args.build_dir]]
      else [])
  ++ (match args.module_path, args.lib_path with
      | some m, some l =>
          [Event.invokeMain ["install", abspath cwd args.build_dir,
            "--module-install-path", m,
            "--library-install-path", l]]
      | _, _ => [])
  ++ [Event.note "Done."]

end GenericUnixStrategy

/-- Does the trace re-enter the dispatcher with the `test` subcommand? -/
def invokes_test (tr : List Event) : Bool :=
  tr.any fun e =>
    match e with
    | Event.invokeMain ("test" :: _) => true
    | _ => false

/-- Does the trace re-enter the dispatcher with the `install` subcommand? -/
def invokes_install (tr : List Event) : Bool :=
  tr.any fun e =>
    match e with
    | Event.invokeMain ("install" :: _) => true
    | _ => false

/-- C7: on the success path of `GenericUnixStrategy.build`, after the
compile and link commands, the dispatcher is re-entered with the `test`
subcommand and the just-produced build directory exactly when the test
flag is set, and with the `install` subcommand and the build directory
exactly when both install paths were supplied; when both chains apply the
test re-entry precedes the install re-entry. -/
theorem build_chains_test_and_install :
    ∀ (cwd : String) (sourcePaths : List String) (args : BuildArgs),
      invokes_test (GenericUnixStrategy.build cwd sourcePaths args)
          = args.test
      ∧ invokes_install (GenericUnixStrategy.build cwd sourcePaths args)
          = (args.module_path.isSome && args.lib_path.isSome)
      ∧ (args.test = true →
          Event.invokeMain ["test",
            "--swiftc", abspath cwd args.swiftc,
            "--foundation-build-dir", abspath cwd args.foundation_build_dir,
            abspath cwd args.build_dir]
            ∈ GenericUnixStrategy.build cwd sourcePaths args)
      ∧ (∀ m l, args.module_path = some m → args.lib_path = some l →
          Event.invokeMain ["install", abspath cwd args.build_dir,
            "--module-install-path", m, "--library-install-path", l]
            ∈ GenericUnixStrategy.build cwd sourcePaths args)
      ∧ (args.test = true → ∀ m l, args.module_path = some m →
          args.lib_path = some l →
          GenericUnixStrategy.build cwd sourcePaths args =
            [Event.mkdirp (abspath cwd args.build_dir),
              Event.run
                (GenericUnixStrategy.compile_command cwd sourcePaths args),
              Event.run (GenericUnixStrategy.link_command cwd args)]
            ++ Event.invokeMain ["test",
                "--swiftc", abspath cwd args.swiftc,
                "--foundation-build-dir",
                abspath cwd args.foundation_build_dir,
                abspath cwd args.build_dir] ::
              Event.invokeMain ["install", abspath cwd args.build_dir,
                "--module-install-path", m, "--library-install-path", l] ::
              [Event.note "Done."]) := by
  intro cwd sourcePaths args
  refine ⟨?_, ?_, ?_, ?_, ?_⟩
  · rcases args with ⟨sc, bd, fbd, fip, lbd, lsd, mp, lp, style, tst⟩
    cases tst <;> rcases mp with _ | m <;> rcases lp with _ | l <;> rfl
  · rcases args with ⟨sc, bd, fbd, fip, lbd, lsd, mp, lp, style, tst⟩
    cases tst <;> rcases mp with _ | m <;> rcases lp with _ | l <;> rfl
  · intro ht
    simp [GenericUnixStrategy.build, ht]
  · intro m l hm hl
    simp [GenericUnixStrategy.build, hm, hl]
  · intro ht m l hm hl
    simp [GenericUnixStrategy.build, ht, hm, hl]

/-- C7 witness: a concrete configuration with the test flag set and both
install paths supplied chains test before install. -/
theorem build_chains_test_and_install_witness :
    GenericUnixStrategy.build "/" []
        { swiftc := "/sc", build_dir := "/b", foundation_build_dir := "/f",
          foundation_install_pfx := "/usr", libdispatch_build_dir := none,
          libdispatch_src_dir := none, module_path := some "/m",
          lib_path := some "/l", build_style := "debug", test := true } =
      [Event.mkdirp (abspath "/" "/b"),
        Event.run (GenericUnixStrategy.compile_command "/" []
          { swiftc := "/sc", build_dir := "/b",
            foundation_build_dir := "/f", foundation_install_pfx := "/usr",
            libdispatch_build_dir := none, libdispatch_src_dir := none,
            module_path := some "/m", lib_path := some "/l",
            build_style := "debug", test := true }),
        Event.run (GenericUnixStrategy.link_command "/"
          { swiftc := "/sc", build_dir := "/b",
            foundation_build_dir := "/f", foundation_install_pfx := "/usr",
            libdispatch_build_dir := none, libdispatch_src_dir := none,
            module_path := some "/m", lib_path := some "/l",
            build_style := "debug", test := true })]
      ++ Event.invokeMain ["test",
          "--swiftc", abspath "/" "/sc",
          "--foundation-build-dir", abspath "/" "/f",
          abspath "/" "/b"] ::
        Event.invokeMain ["install", abspath "/" "/b",
          "--module-install-path", "/m", "--library-install-path", "/l"] ::
        [Event.note "Done."] :=
  (build_chains_test_and_install "/" []
    { swiftc := "/sc", build_dir := "/b", foundation_build_dir := "/f",
      foundation_install_pfx := "/usr", libdispatch_build_dir := none,
      libdispatch_src_dir := none, module_path := some "/m",
      lib_path := some "/l", build_style := "debug",
      test := true }).2.2.2.2 rfl "/m" "/l" rfl rfl

namespace GenericUnixStrategy

/-- The `IOError` message raised when the lit tool is missing
(`bootstrap/strategy.py` lines 156-166), with the resolved path
substituted for the format placeholder. -/
def lit_error_message (lit_path : String) : String :=
  "Could not find lit tester tool at path: \"" ++ lit_path ++
    ("\". This tool is requred to run the test suite. Unless you " ++
      "specified a custom path to the tool using the \"--lit\" option, " ++
      "the lit tool will be found in the LLVM source tree, which is " ++
      "expected to be checked out in the same directory as " ++
      "swift-corelibs-xctest. If you do not have LLVM checked out at " ++
      "this path, you may follow the instructions for \"Getting Sources " ++
      "for Swift and Related Projects\" from the Swift project README " ++
      "in order to fix this error.")

/-- The libdispatch environment assignments of the test-runner command
(`bootstrap/strategy.py` lines 178-183): present only when both the
libdispatch source and build directories were supplied. -/
def libdispatch_src_args (cwd : String) (args : TestArgs) : String :=
  match args.libdispatch_src_dir, args.libdispatch_build_dir with
  | some lsd, some lbd =>
      "LIBDISPATCH_SRC_DIR=" ++ abspath cwd lsd ++
        " LIBDISPATCH_BUILD_DIR=" ++ posixJoin lbd ["src", ".libs"]
  | _, _ => ""

/-- The test-runner command issued by `test` (`bootstrap/strategy.py`
lines 185-199): environment assignments for the compiler and the build,
Foundation and CoreFoundation product directories, then the lit tool, its
flags, and the functional-test directory under the source tree
(`src_dir`, the embedded `SOURCE_DIR`). -/
def test_run_command (src_dir cwd : String) (args : TestArgs) : String :=
  "SWIFT_EXEC=" ++ abspath cwd args.swiftc ++
    " BUILT_PRODUCTS_DIR=" ++ args.build_dir ++
    " FOUNDATION_BUILT_PRODUCTS_DIR=" ++
    abspath cwd args.foundation_build_dir ++
    " CORE_FOUNDATION_BUILT_PRODUCTS_DIR=" ++
    core_foundation_build_dir (abspath cwd args.foundation_build_dir)
      args.foundation_install_pfx ++
    " " ++ libdispatch_src_args cwd args ++
    " " ++ abspath cwd args.lit ++ " -sv --no-progress-bar " ++
    posixJoin src_dir ["Tests", "Functional"]

/-- The target path of the libdispatch symlink
(`bootstrap/strategy.py` line 176):
`os.path.join(args.libdispatch_build_dir, "src", ".libs",
"libdispatch.so")` (the raw, unresolved flag value). -/
def libdispatch_so_target (lbd : String) : String :=
  posixJoin lbd ["src", ".libs", "libdispatch.so"]

/-- Embedding of `GenericUnixStrategy.test` (`bootstrap/strategy.py`
lines 149-199) over the shallow filesystem `fs`: when no file exists at
the resolved lit path, the `IOError` is raised before any event; otherwise
the trace optionally force-symlinks `libdispatch.so` onto the Foundation
build directory (only when a libdispatch build directory was supplied) and
then runs the test-runner command. -/
def test (src_dir cwd : String) (fs : FS) (args : TestArgs) :
    Except String (List Event) :=
  if os_path_exists fs (abspath cwd args.lit) = false then
    Except.error (lit_error_message (abspath cwd args.lit))
  else
    Except.ok
      ((match args.libdispatch_build_dir with
        | some lbd =>
            [Event.symlinkForce (libdispatch_so_target lbd)
              (abspath cwd args.foundation_build_dir)]
        | none => []) ++
        [Event.run (test_run_command src_dir cwd args)])

end GenericUnixStrategy

/-- C8: under the generic-Unix strategy, when no file exists at the
resolved lit path, `test` raises the `IOError` whose message names that
path (and lists the remediation steps), before any event — no external
command, no filesystem mutation; when a file exists at the path, no such
error is raised. -/
theorem test_missing_lit_tool :
    ∀ (src_dir cwd : String) (fs : FS) (args : TestArgs),
      (os_path_exists fs (abspath cwd args.lit) = false →
        GenericUnixStrategy.test src_dir cwd fs args =
          Except.error
            (GenericUnixStrategy.lit_error_message (abspath cwd args.lit))
        ∧ ∃ pre post,
            GenericUnixStrategy.lit_error_message (abspath cwd args.lit) =
              pre ++ abspath cwd args.lit ++ post)
      ∧ (os_path_exists fs (abspath cwd args.lit) = true →
          ∃ tr, GenericUnixStrategy.test src_dir cwd fs args =
            Except.ok tr) := by
  intro src_dir cwd fs args
  constructor
  · intro h
    constructor
    · unfold GenericUnixStrategy.test
      rw [if_pos h]
    · exact ⟨"Could not find lit tester tool at path: \"", _, rfl⟩
  · intro h
    have hne : ¬ os_path_exists fs (abspath cwd args.lit) = false := by
      rw [h]; simp
    exact ⟨(match args.libdispatch_build_dir with
            | some lbd =>
                [Event.symlinkForce
                  (GenericUnixStrategy.libdispatch_so_target lbd)
                  (abspath cwd args.foundation_build_dir)]
            | none => []) ++
              [Event.run
                (GenericUnixStrategy.test_run_command src_dir cwd args)],
      by unfold GenericUnixStrategy.test; rw [if_neg hne]⟩

/-- C8 witness: with no entry at `/lit` the error carrying the resolved
path is raised and nothing runs; with a file there, `test` succeeds. -/
theorem test_missing_lit_tool_witness :
    (GenericUnixStrategy.test "/S" "/" []
        { build_dir := "/b", swiftc := "/sc", lit := "/lit",
          foundation_build_dir := "/f", foundation_install_pfx := "/usr",
          libdispatch_build_dir := none, libdispatch_src_dir := none } =
      Except.error
        (GenericUnixStrategy.lit_error_message (abspath "/" "/lit"))
      ∧ ∃ pre post,
          GenericUnixStrategy.lit_error_message (abspath "/" "/lit") =
            pre ++ abspath "/" "/lit" ++ post)
    ∧ ∃ tr,
        GenericUnixStrategy.test "/S" "/" [("/lit", Entry.file)]
            { build_dir := "/b", swiftc := "/sc", lit := "/lit",
              foundation_build_dir := "/f",
              foundation_install_pfx := "/usr",
              libdispatch_build_dir := none,
              libdispatch_src_dir := none } =
          Except.ok tr :=
  ⟨(test_missing_lit_tool "/S" "/" []
      { build_dir := "/b", swiftc := "/sc", lit := "/lit",
        foundation_build_dir := "/f", foundation_install_pfx := "/usr",
        libdispatch_build_dir := none, libdispatch_src_dir := none }).1
      rfl,
    (test_missing_lit_tool "/S" "/" [("/lit", Entry.file)]
      { build_dir := "/b", swiftc := "/sc", lit := "/lit",
        foundation_build_dir := "/f", foundation_install_pfx := "/usr",
        libdispatch_build_dir := none, libdispatch_src_dir := none }).2
      rfl⟩

theorem joinOne_data_cases (q b : String) (hb : startsWithSlash b = false) :
    (joinOne q b).data = q.data ++ b.data
    ∨ (joinOne q b).data = q.data ++ '/' :: b.data := by
  unfold joinOne
  rw [hb]
  simp only [Bool.false_eq_true, if_false]
  by_cases h : q = "" ∨ endsWithSlash q = true
  · rw [if_pos h]
    exact Or.inl (String.data_append q b)
  · rw [if_neg h]
    refine Or.inr ?_
    rw [String.data_append, String.data_append]
    rw [List.append_assoc]
    rfl

theorem takeWhile_append_stop (p : Char → Bool) (u w : List Char)
    (hu : ∀ c ∈ u, p c = true) (hs : p '/' = false) :
    List.takeWhile p (u ++ '/' :: w) = u := by
  induction u with
  | nil => simp [List.takeWhile_cons, hs]
  | cons c cs ih =>
      rw [List.cons_append, List.takeWhile_cons,
        hu c (List.mem_cons_self c cs)]
      rw [ih (fun d hd => hu d (List.mem_cons_of_mem c hd))]
      rw [if_pos rfl]

/-- The base name of the libdispatch symlink target is `libdispatch.so`,
whatever the supplied libdispatch build directory is. -/
theorem basename_libdispatch_so_target (lbd : String) :
    basename (GenericUnixStrategy.libdispatch_so_target lbd) =
      "libdispatch.so" := by
  have hy : ∀ q : String,
      (joinOne q ".libs").data.getLast? = some 's'
      ∧ joinOne q ".libs" ≠ "" := by
    intro q
    rcases joinOne_data_cases q ".libs" rfl with hd | hd
    · constructor
      · rw [hd]
        rw [show (".libs" : String).data = '.' :: ['l', 'i', 'b', 's']
              from rfl]
        rw [getLast?_append_cons]
        rfl
      · intro hc
        rw [hc] at hd
        simp at hd
    · constructor
      · rw [hd]
        rw [show (".libs" : String).data = '.' :: ['l', 'i', 'b', 's']
              from rfl]
        have : q.data ++ '/' :: '.' :: ['l', 'i', 'b', 's'] =
            (q.data ++ ['/']) ++ '.' :: ['l', 'i', 'b', 's'] := by
          rw [List.append_assoc]
          rfl
        rw [this, getLast?_append_cons]
        rfl
      · intro hc
        rw [hc] at hd
        simp at hd
  set y := joinOne (joinOne lbd "src") ".libs" with hy_def
  have hyl : y.data.getLast? = some 's' := (hy (joinOne lbd "src")).1
  have hyne : y ≠ "" := (hy (joinOne lbd "src")).2
  have hends : endsWithSlash y = false := by
    unfold endsWithSlash
    rw [hyl]
    rfl
  have htarget : GenericUnixStrategy.libdispatch_so_target lbd =
      y ++ "/" ++ "libdispatch.so" := by
    unfold GenericUnixStrategy.libdispatch_so_target posixJoin
    simp only [List.foldl]
    rw [← hy_def]
    unfold joinOne
    rw [show startsWithSlash "libdispatch.so" = false from rfl]
    simp only [Bool.false_eq_true, if_false]
    rw [if_neg]
    intro hc
    rcases hc with hc | hc
    · exact hyne hc
    · rw [hends] at hc
      exact Bool.false_ne_true hc
  have hdata : (GenericUnixStrategy.libdispatch_so_target lbd).data =
      y.data ++ '/' :: ("libdispatch.so" : String).data := by
    rw [htarget, String.data_append, String.data_append]
    rw [List.append_assoc]
    rfl
  unfold basename
  rw [hdata]
  rw [List.reverse_append]
  rw [show ('/' :: ("libdispatch.so" : String).data).reverse =
        ("libdispatch.so" : String).data.reverse ++ '/' :: [] from by
      rw [List.reverse_cons]]
  rw [List.append_assoc]
  rw [show (['/'] : List Char) ++ y.data.reverse = '/' :: y.data.reverse
        from rfl]
  rw [takeWhile_append_stop _ _ _ (by decide) rfl]
  rw [List.reverse_reverse]

/-- Does the trace contain any `symlink_force` call? -/
def has_symlink_event (tr : List Event) : Bool :=
  tr.any fun e =>
    match e with
    | Event.symlinkForce _ _ => true
    | _ => false

/-- C9 counterexample: a test invocation with no libdispatch build
directory supplied runs the test runner without any `symlink_force` call,
so the symlink is not created on every test invocation. -/
theorem test_symlink_counterexample :
    (GenericUnixStrategy.test "/S" "/" [("/lit", Entry.file)]
        { build_dir := "/b", swiftc := "/sc", lit := "/lit",
          foundation_build_dir := "/f", foundation_install_pfx := "/usr",
          libdispatch_build_dir := none,
          libdispatch_src_dir := none }).map has_symlink_event =
      Except.ok false := by
  rfl

/-- C9 (amended): on every test invocation in which a libdispatch build
directory is supplied, the successful trace first force-symlinks
`libdispatch.so` onto the Foundation build directory and then runs the
test-runner command with the environment assignments; the symlink target's
base name is `libdispatch.so`, and when the Foundation build directory is
a directory a successful `symlink_force` places the link inside it under
that base name. -/
theorem test_symlinks_libdispatch :
    ∀ (src_dir cwd : String) (fs : FS) (args : TestArgs) (lbd : String),
      args.libdispatch_build_dir = some lbd →
      (∀ tr, GenericUnixStrategy.test src_dir cwd fs args = Except.ok tr →
        tr = [Event.symlinkForce
                (GenericUnixStrategy.libdispatch_so_target lbd)
                (abspath cwd args.foundation_build_dir),
              Event.run
                (GenericUnixStrategy.test_run_command src_dir cwd args)])
      ∧ basename (GenericUnixStrategy.libdispatch_so_target lbd) =
          "libdispatch.so"
      ∧ (∀ fs' fs'',
          os_path_isdir fs' (abspath cwd args.foundation_build_dir) = true →
          symlink_force fs' (GenericUnixStrategy.libdispatch_so_target lbd)
              (abspath cwd args.foundation_build_dir) = Except.ok fs'' →
          lookupFS fs''
              (joinOne (abspath cwd args.foundation_build_dir)
                "libdispatch.so") =
            some (Entry.symlink
              (GenericUnixStrategy.libdispatch_so_target lbd))) := by
  intro src_dir cwd fs args lbd hlbd
  refine ⟨?_, basename_libdispatch_so_target lbd, ?_⟩
  · intro tr htr
    cases hex : os_path_exists fs (abspath cwd args.lit) with
    | false =>
        unfold GenericUnixStrategy.test at htr
        rw [if_pos hex] at htr
        exact Except.noConfusion htr
    | true =>
        unfold GenericUnixStrategy.test at htr
        rw [if_neg (by rw [hex]; simp)] at htr
        rw [hlbd] at htr
        have := Except.ok.inj htr
        rw [← this]
        rfl
  · intro fs' fs'' hdir hok
    have h1 := (symlink_force_ok_spec fs'
      (GenericUnixStrategy.libdispatch_so_target lbd)
      (abspath cwd args.foundation_build_dir) fs'' hok).1
    have h2 : symlink_force_resolved fs'
        (GenericUnixStrategy.libdispatch_so_target lbd)
        (abspath cwd args.foundation_build_dir) =
        joinOne (abspath cwd args.foundation_build_dir)
          "libdispatch.so" := by
      unfold symlink_force_resolved
      rw [if_pos hdir, basename_libdispatch_so_target lbd]
    rw [h2] at h1
    exact h1

/-- C9 witness: concrete test invocation with a libdispatch build
directory supplied — the trace is the symlink followed by the test-runner
command, and on a filesystem where the Foundation build directory exists
the symlink lands inside it under `libdispatch.so`. -/
theorem test_symlinks_libdispatch_witness :
    ([Event.symlinkForce (GenericUnixStrategy.libdispatch_so_target "/ld")
          (abspath "/" "/f"),
        Event.run (GenericUnixStrategy.test_run_command "/S" "/"
          { build_dir := "/b", swiftc := "/sc", lit := "/lit",
            foundation_build_dir := "/f", foundation_install_pfx := "/usr",
            libdispatch_build_dir := some "/ld",
            libdispatch_src_dir := none })] =
      [Event.symlinkForce (GenericUnixStrategy.libdispatch_so_target "/ld")
          (abspath "/" "/f"),
        Event.run (GenericUnixStrategy.test_run_command "/S" "/"
          { build_dir := "/b", swiftc := "/sc", lit := "/lit",
            foundation_build_dir := "/f", foundation_install_pfx := "/usr",
            libdispatch_build_dir := some "/ld",
            libdispatch_src_dir := none })])
    ∧ basename (GenericUnixStrategy.libdispatch_so_target "/ld") =
        "libdispatch.so"
    ∧ lookupFS
        [("/f/libdispatch.so",
            Entry.symlink (GenericUnixStrategy.libdispatch_so_target "/ld")),
          ("/f", Entry.dir)]
        (joinOne (abspath "/" "/f") "libdispatch.so") =
        some (Entry.symlink
          (GenericUnixStrategy.libdispatch_so_target "/ld")) :=
  ⟨(test_symlinks_libdispatch "/S" "/" [("/lit", Entry.file)]
      { build_dir := "/b", swiftc := "/sc", lit := "/lit",
        foundation_build_dir := "/f", foundation_install_pfx := "/usr",
        libdispatch_build_dir := some "/ld",
        libdispatch_src_dir := none } "/ld" rfl).1 _ rfl,
    (test_symlinks_libdispatch "/S" "/" [("/lit", Entry.file)]
      { build_dir := "/b", swiftc := "/sc", lit := "/lit",
        foundation_build_dir := "/f", foundation_install_pfx := "/usr",
        libdispatch_build_dir := some "/ld",
        libdispatch_src_dir := none } "/ld" rfl).2.1,
    (test_symlinks_libdispatch "/S" "/" [("/lit", Entry.file)]
      { build_dir := "/b", swiftc := "/sc", lit := "/lit",
        foundation_build_dir := "/f", foundation_install_pfx := "/usr",
        libdispatch_build_dir := some "/ld",
        libdispatch_src_dir := none } "/ld" rfl).2.2
      [("/f", Entry.dir)] _ rfl (by rfl)⟩
